import Mathlib

/-!
Verification of the token-budget adaptation layer of the apify-openai-scraper
actor. The embedding follows `src/main.ts` (the `requestHandler` body from the
content-conversion step through `Dataset.pushData`). The collaborators that
live in `openai.ts` and `processors.ts` (token counter, HTML converters,
chunker, model client) are not part of the sources; they enter the model as
an abstract environment `Env`, except the usage accumulator which is
modelled from the specification where a claim depends on its behavior.
-/

namespace OpenaiScraper

/-- Token usage of a single model call, as returned by the model client. -/
structure Usage where
  prompt_tokens : Nat
  completion_tokens : Nat
  total_tokens : Nat
deriving DecidableEq, Repr

/-- Result of one `processInstructions` model invocation. -/
structure CallResult where
  answer : String
  usage : Usage
deriving DecidableEq, Repr

/-- Modelled from the spec: the `OpenaiAPIUsage` class of `openai.ts` is not
among the sources. Per the spec (UsageAccumulator, section 4.6) it keeps a
running total of token usage for the current page, created fresh per page;
`record(usage)` adds a CallResult usage to the running total and
`total()` returns accumulated total tokens. -/
structure OpenaiAPIUsage where
  model : String
  totalTokens : Nat
deriving DecidableEq, Repr

/-- Modelled from the spec: a fresh accumulator holds no usage. -/
def OpenaiAPIUsage.init (model : String) : OpenaiAPIUsage :=
  { model := model, totalTokens := 0 }

/-- Modelled from the spec: `record(usage)` adds a CallResult usage to the
running total. -/
def OpenaiAPIUsage.logApiCallUsage (u : OpenaiAPIUsage) (usage : Usage) : OpenaiAPIUsage :=
  { u with totalTokens := u.totalTokens + usage.total_tokens }

/-- Modelled from the spec: `total()` returns accumulated total tokens. -/
def OpenaiAPIUsage.getTotalTokenUsage (u : OpenaiAPIUsage) : Nat :=
  u.totalTokens

/-- The model configuration resolved once per run by `validateGPTModel`. -/
structure ModelCfg where
  model : String
  maxTokens : Nat
deriving DecidableEq, Repr

/-- The abstract collaborators imported by `main.ts` from `openai.ts` and
`processors.ts`, which are outside the sources: they are parameters of the
embedding, constrained only by their interface shape. `processInstructions`
maps a prompt to either a call result or an upstream error;
`rethrowOpenaiError` is the error classifier applied in every catch block. -/
structure Env where
  getNumberOfTextTokens : String → Nat
  htmlToMarkdown : String → String
  htmlToText : String → String
  shrinkHtml : String → String
  shortsTextByTokenLength : String → Rat → String
  chunkTextByTokenLenght : String → Rat → List String
  processInstructions : String → Except String CallResult
  rethrowOpenaiError : String → String
  hasApiKeyExceeded : OpenaiAPIUsage → String → Bool

/-- The fields of `Input` consumed by the content-processing part of the
request handler (`src/input.ts`). -/
structure HandlerInput where
  instructions : String
  content : Option String
  longContentConfig : Option String
  openaiApiKey : String
deriving DecidableEq, Repr

/-- Errors thrown by the handler body: the configuration error of line 163
of `main.ts`, and classified model-call errors rethrown on lines 130, 160
and 177. -/
inductive Err where
  | config (msg : String)
  | openai (msg : String)
deriving DecidableEq, Repr

/-- The record pushed to the dataset on lines 184-196 of `main.ts`
(the `createRequestDebugInfo` spread, which only echoes crawler request
metadata, is omitted). -/
structure ResultRecord where
  contentLength : Nat
  contentTokenLength : Nat
  instructionTokenLength : Nat
  answerTokenLength : Nat
  totalTokenLength : Nat
  openaiModel : String
  openaiApiKey : Bool
  answer : String
  originalContent : String
  content : String
deriving DecidableEq, Repr

deriving instance DecidableEq for Except

/-- Outcome of one `requestHandler` run on one page: `outcome` is
`Except.ok none` for the early skip return, `Except.ok (some record)` for a
normal completion that pushed a record, `Except.error` for a thrown error;
`calls` lists the prompts dispatched to the model in dispatch order;
`usage` is the state of the per-page usage accumulator when the handler
exits. -/
structure HandlerResult where
  outcome : Except Err (Option ResultRecord)
  calls : List String
  usage : OpenaiAPIUsage
deriving DecidableEq, Repr

/-- Constant `DEFAULT_CONTENT` of `main.ts` line 23. -/
def DEFAULT_CONTENT : String := "markdown"

/-- Line 87 of `main.ts`: `input.content || DEFAULT_CONTENT`. The JS
or-operator also replaces the empty string, which is falsy. -/
def resolveContentFormat (c : Option String) : String :=
  match c with
  | none => DEFAULT_CONTENT
  | some s => if s = "" then DEFAULT_CONTENT else s

/-- Lines 86-99 of `main.ts`: the switch on the content format. The cases
are markdown and text; the html case falls through to the default, which
shrinks the HTML. -/
def convertPageContent (env : Env) (c : Option String) (originalContentHtml : String) : String :=
  let content := resolveContentFormat c
  if content = "markdown" then env.htmlToMarkdown originalContentHtml
  else if content = "text" then env.htmlToText originalContentHtml
  else env.shrinkHtml originalContentHtml

/-- Prompt construction used on lines 120, 141 and 167 of `main.ts`:
the instructions followed by the content in a fenced block. -/
def mkPrompt (instructions contentPart : String) : String :=
  instructions ++ "```" ++ contentPart ++ "```"

/-- Lines 113 and 133 of `main.ts`:
`modelConfig.maxTokens * 0.9 - instructionTokenLength`, computed exactly
over the rationals (the JS double rounding of `0.9` is within one ulp and
never changes the sign or the comparisons used here). No flooring and no
validation appears in the source. -/
def contentMaxTokensQ (modelConfig : ModelCfg) (instructionTokenLength : Nat) : Rat :=
  (modelConfig.maxTokens : Rat) * (9 / 10) - (instructionTokenLength : Rat)

/-- JS string interpolation of the possibly-undefined policy value in the
error message of line 163. -/
def showPolicy (c : Option String) : String :=
  match c with
  | none => "undefined"
  | some s => s

/-- Model of `await Promise.all(promises)` over already-determined outcomes: the
resolved array holds the values in promise order; the whole call rejects
when any promise rejects. -/
def promiseAll {e b : Type} : List (Except e b) → Except e (List b)
  | [] => Except.ok []
  | p :: ps =>
    match p with
    | Except.error err => Except.error err
    | Except.ok v =>
      match promiseAll ps with
      | Except.error err => Except.error err
      | Except.ok vs => Except.ok (v :: vs)

/-- Model of `Promise.all` under an explicit completion schedule: `sched` lists the
promise indices in the order they settle. A rejection anywhere in the
schedule rejects the whole call; otherwise each fulfilled value is stored
in the slot of its own index and the result array is read out by index.
`none` means some slot never settled (an incomplete schedule). -/
def promiseAllSched {e b : Type} (outcomes : List (Except e b)) (sched : List Nat) :
    Option (Except e (List b)) :=
  match sched.findSome? (fun i =>
      match outcomes[i]? with
      | some (Except.error err) => some err
      | _ => none) with
  | some err => some (Except.error err)
  | none =>
    ((List.range outcomes.length).mapM (fun i =>
        if i ∈ sched then
          match outcomes[i]? with
          | some (Except.ok v) => some v
          | _ => none
        else none)).map Except.ok

/-- The dataset record of lines 184-196 of `main.ts`. -/
def mkResultRecord (env : Env) (modelConfig : ModelCfg) (input : HandlerInput)
    (originalContentHtml pageContent : String)
    (contentTokenLength instructionTokenLength : Nat)
    (answer : String) (openaiUsage : OpenaiAPIUsage) : ResultRecord :=
  { contentLength := pageContent.length
    contentTokenLength := contentTokenLength
    instructionTokenLength := instructionTokenLength
    answerTokenLength := env.getNumberOfTextTokens answer
    totalTokenLength := openaiUsage.getTotalTokenUsage
    openaiModel := modelConfig.model
    openaiApiKey := env.hasApiKeyExceeded openaiUsage input.openaiApiKey
    answer := answer
    originalContent := originalContentHtml
    content := pageContent }

/-- The content-processing body of `requestHandler` (`main.ts` lines
86-196): convert the page HTML, measure tokens, dispatch on content length
and on the long-content policy, call the model, and push one record on
normal completion. -/
def requestHandlerContent (env : Env) (modelConfig : ModelCfg) (input : HandlerInput)
    (originalContentHtml : String) : HandlerResult :=
  let pageContent := convertPageContent env input.content originalContentHtml
  let contentTokenLength := env.getNumberOfTextTokens pageContent
  let instructionTokenLength := env.getNumberOfTextTokens input.instructions
  let openaiUsage := OpenaiAPIUsage.init modelConfig.model
  if contentTokenLength > modelConfig.maxTokens then
    if input.longContentConfig = some "skip" then
      { outcome := Except.ok none, calls := [], usage := openaiUsage }
    else if input.longContentConfig = some "truncate" then
      let contentMaxTokens := contentMaxTokensQ modelConfig instructionTokenLength
      let truncatedContent := env.shortsTextByTokenLength pageContent contentMaxTokens
      let prompt := mkPrompt input.instructions truncatedContent
      match env.processInstructions prompt with
      | Except.ok answerResult =>
        let usage1 := openaiUsage.logApiCallUsage answerResult.usage
        { outcome := Except.ok (some (mkResultRecord env modelConfig input
            originalContentHtml pageContent contentTokenLength instructionTokenLength
            answerResult.answer usage1))
          calls := [prompt]
          usage := usage1 }
      | Except.error err =>
        { outcome := Except.error (Err.openai (env.rethrowOpenaiError err))
          calls := [prompt]
          usage := openaiUsage }
    else if input.longContentConfig = some "split" then
      let contentMaxTokens := contentMaxTokensQ modelConfig instructionTokenLength
      let pageChunks := env.chunkTextByTokenLenght pageContent contentMaxTokens
      let prompts := pageChunks.map (fun contentPart => mkPrompt input.instructions contentPart)
      match promiseAll (prompts.map env.processInstructions) with
      | Except.ok results =>
        let answer := String.intercalate "\n" (results.map CallResult.answer)
        let usage1 := results.foldl (fun u r => u.logApiCallUsage r.usage) openaiUsage
        { outcome := Except.ok (some (mkResultRecord env modelConfig input
            originalContentHtml pageContent contentTokenLength instructionTokenLength
            answer usage1))
          calls := prompts
          usage := usage1 }
      | Except.error err =>
        { outcome := Except.error (Err.openai (env.rethrowOpenaiError err))
          calls := prompts
          usage := openaiUsage }
    else
      { outcome := Except.error (Err.config
          ("Unsupported config value for longContentConfig: " ++ showPolicy input.longContentConfig))
        calls := []
        usage := openaiUsage }
  else
    let prompt := mkPrompt input.instructions pageContent
    match env.processInstructions prompt with
    | Except.ok answerResult =>
      let usage1 := openaiUsage.logApiCallUsage answerResult.usage
      { outcome := Except.ok (some (mkResultRecord env modelConfig input
          originalContentHtml pageContent contentTokenLength instructionTokenLength
          answerResult.answer usage1))
        calls := [prompt]
        usage := usage1 }
    | Except.error err =>
      { outcome := Except.error (Err.openai (env.rethrowOpenaiError err))
        calls := [prompt]
        usage := openaiUsage }

/-- True when the handler pushed a dataset record. -/
def isPushed (r : HandlerResult) : Bool :=
  match r.outcome with
  | Except.ok (some _) => true
  | _ => false

/-- True when the handler threw the configuration error of line 163. -/
def isConfigError (r : HandlerResult) : Bool :=
  match r.outcome with
  | Except.error (Err.config _) => true
  | _ => false

/-- True when the handler rethrew a classified model-call error. -/
def isOpenaiError (r : HandlerResult) : Bool :=
  match r.outcome with
  | Except.error (Err.openai _) => true
  | _ => false

/-- The `content` field of the pushed record, when a record was pushed. -/
def recordContentOf (r : HandlerResult) : Option String :=
  match r.outcome with
  | Except.ok (some rec) => some rec.content
  | _ => none

/-- The `answer` field of the pushed record, when a record was pushed. -/
def recordAnswerOf (r : HandlerResult) : Option String :=
  match r.outcome with
  | Except.ok (some rec) => some rec.answer
  | _ => none

/-- The `totalTokenLength` field of the pushed record, when a record was
pushed. -/
def recordTotalTokensOf (r : HandlerResult) : Option Nat :=
  match r.outcome with
  | Except.ok (some rec) => some rec.totalTokenLength
  | _ => none

/-- A small concrete environment used to evaluate the handler on explicit
inputs: tokens are counted as characters, the three converters tag their
input, truncation always returns the marker string `T`, the chunker always
yields three fixed chunks, and the model echoes the prompt except that it
fails on the prompt built from instruction `I` and chunk `c2`. -/
def toyEnv : Env :=
  { getNumberOfTextTokens := fun s => s.length
    htmlToMarkdown := fun s => "md:" ++ s
    htmlToText := fun s => "tx:" ++ s
    shrinkHtml := fun s => "sh:" ++ s
    shortsTextByTokenLength := fun _ _ => "T"
    chunkTextByTokenLenght := fun _ _ => ["c1", "c2", "c3"]
    processInstructions := fun p =>
      if p = "I```c2```" then Except.error "boom"
      else Except.ok { answer := p
                       usage := { prompt_tokens := 0, completion_tokens := 0
                                  total_tokens := p.length } }
    rethrowOpenaiError := fun m => "classified:" ++ m
    hasApiKeyExceeded := fun _ _ => false }

/-- A model configuration with a 10-token context window, used for the
oversized-content scenarios. -/
def cfg10 : ModelCfg := { model := "m", maxTokens := 10 }

/-- Input with the split policy and instruction `J`, on which every chunk
call of `toyEnv` succeeds. -/
def splitInputJ : HandlerInput :=
  { instructions := "J", content := some "text", longContentConfig := some "split"
    openaiApiKey := "k" }

/-- The three call results `toyEnv` produces for the chunk prompts built
from instruction `J` and chunks `c1`, `c2`, `c3`. -/
def resultsJ : List CallResult :=
  [ { answer := "J```c1```"
      usage := { prompt_tokens := 0, completion_tokens := 0, total_tokens := 9 } }
  , { answer := "J```c2```"
      usage := { prompt_tokens := 0, completion_tokens := 0, total_tokens := 9 } }
  , { answer := "J```c3```"
      usage := { prompt_tokens := 0, completion_tokens := 0, total_tokens := 9 } } ]

/-! Helper lemmas about the promise machinery and the usage accumulator. -/

theorem promiseAll_map_ok {e b : Type} (l : List b) :
    (promiseAll (l.map Except.ok) : Except e (List b)) = Except.ok l := by
  induction l with
  | nil => rfl
  | cons a t ih => simp [promiseAll, ih]

theorem promiseAll_of_mem_error {e b : Type} (l : List (Except e b)) (err : e)
    (h : Except.error err ∈ l) : ∃ m, promiseAll l = Except.error m := by
  induction l with
  | nil => cases h
  | cons a t ih =>
    rcases List.mem_cons.mp h with h1 | h2
    · exact ⟨err, by rw [← h1]; rfl⟩
    · rcases a with m | v
      · exact ⟨m, rfl⟩
      · rcases ih h2 with ⟨m, hm⟩
        exact ⟨m, by simp [promiseAll, hm]⟩

theorem foldl_logApiCallUsage (u : OpenaiAPIUsage) (l : List CallResult) :
    (l.foldl (fun a r => a.logApiCallUsage r.usage) u).totalTokens
      = u.totalTokens + (l.map (fun r => r.usage.total_tokens)).sum := by
  induction l generalizing u with
  | nil => simp
  | cons a t ih =>
    rw [List.foldl_cons, ih]
    simp [OpenaiAPIUsage.logApiCallUsage, Nat.add_assoc]

theorem mapM_option_comp {b : Type} (g : Nat → Nat) (f : Nat → Option b) (l : List Nat) :
    (l.map g).mapM f = l.mapM (fun i => f (g i)) := by
  induction l with
  | nil => rfl
  | cons a t ih => rw [List.map_cons, List.mapM_cons, List.mapM_cons, ih]

theorem mapM_range_eq {b : Type} (l : List b) (f : Nat → Option b)
    (hf : ∀ i : Fin l.length, f i = some (l.get i)) :
    (List.range l.length).mapM f = some l := by
  induction l generalizing f with
  | nil => rfl
  | cons a t ih =>
    rw [List.length_cons, List.range_succ_eq_map, List.mapM_cons, mapM_option_comp]
    rw [hf ⟨0, Nat.succ_pos _⟩]
    rw [ih (fun i => f (i + 1)) (fun i => hf ⟨i + 1, Nat.succ_lt_succ i.isLt⟩)]
    rfl

/-- A complete settlement schedule (every promise index settles, in any
order) over all-fulfilled outcomes assembles exactly the index-ordered
result array. -/
theorem promiseAllSched_complete {e b : Type} (results : List b) (sched : List Nat)
    (hc : ∀ i, i < results.length → i ∈ sched) :
    (promiseAllSched (results.map Except.ok) sched : Option (Except e (List b)))
      = some (Except.ok results) := by
  unfold promiseAllSched
  have hnone : (sched.findSome? (fun i =>
      match (results.map (Except.ok : b → Except e b))[i]? with
      | some (Except.error err) => some err
      | _ => none)) = none := by
    rw [List.findSome?_eq_none_iff]
    intro i _
    rw [List.getElem?_map]
    rcases hr : results[i]? with _ | w
    · rfl
    · rfl
  rw [hnone]
  rw [List.length_map]
  rw [mapM_range_eq results _ (fun i => by
    rw [if_pos (hc i i.isLt)]
    rw [List.getElem?_map, List.getElem?_eq_getElem i.isLt]
    rfl)]
  rfl


/-- Claim C1: for every page whose content token count is at most
`maxTokens`, the handler dispatches exactly one model call whose prompt
embeds the full, untouched converted page content, whatever the configured
long-content policy. -/
theorem claim1_passthrough_single_untouched_call (env : Env) (modelConfig : ModelCfg)
    (input : HandlerInput) (originalContentHtml : String)
    (h : env.getNumberOfTextTokens (convertPageContent env input.content originalContentHtml)
      ≤ modelConfig.maxTokens) :
    (requestHandlerContent env modelConfig input originalContentHtml).calls
      = [mkPrompt input.instructions
          (convertPageContent env input.content originalContentHtml)] := by
  unfold requestHandlerContent
  rw [if_neg (not_lt.mpr h)]
  rcases henv : env.processInstructions (mkPrompt input.instructions
      (convertPageContent env input.content originalContentHtml)) with e | r
  · simp [henv]
  · simp [henv]

theorem claim1_witness :
    toyEnv.getNumberOfTextTokens (convertPageContent toyEnv (some "text") "H") ≤ 100 ∧
    (requestHandlerContent toyEnv { model := "m", maxTokens := 100 }
        { instructions := "I", content := some "text", longContentConfig := some "skip"
          openaiApiKey := "k" } "H").calls
      = [mkPrompt "I" (convertPageContent toyEnv (some "text") "H")] :=
  ⟨by decide, claim1_passthrough_single_untouched_call toyEnv
    { model := "m", maxTokens := 100 }
    { instructions := "I", content := some "text", longContentConfig := some "skip"
      openaiApiKey := "k" } "H" (by decide)⟩

/-- Claim C5: for an oversized page under the skip policy the handler
returns normally with no model call and no pushed record. -/
theorem claim5_skip_no_call_no_record (env : Env) (modelConfig : ModelCfg)
    (input : HandlerInput) (originalContentHtml : String)
    (h : env.getNumberOfTextTokens (convertPageContent env input.content originalContentHtml)
      > modelConfig.maxTokens)
    (hp : input.longContentConfig = some "skip") :
    (requestHandlerContent env modelConfig input originalContentHtml).outcome = Except.ok none
      ∧ (requestHandlerContent env modelConfig input originalContentHtml).calls = [] := by
  unfold requestHandlerContent
  rw [if_pos h, if_pos hp]
  exact ⟨rfl, rfl⟩

theorem claim5_witness :
    toyEnv.getNumberOfTextTokens (convertPageContent toyEnv (some "text") "HHHHHHHHHH") > 10 ∧
    (some "skip" : Option String) = some "skip" ∧
    ((requestHandlerContent toyEnv { model := "m", maxTokens := 10 }
        { instructions := "I", content := some "text", longContentConfig := some "skip"
          openaiApiKey := "k" } "HHHHHHHHHH").outcome = Except.ok none
      ∧ (requestHandlerContent toyEnv { model := "m", maxTokens := 10 }
        { instructions := "I", content := some "text", longContentConfig := some "skip"
          openaiApiKey := "k" } "HHHHHHHHHH").calls = []) :=
  ⟨by decide, rfl, claim5_skip_no_call_no_record toyEnv { model := "m", maxTokens := 10 }
    { instructions := "I", content := some "text", longContentConfig := some "skip"
      openaiApiKey := "k" } "HHHHHHHHHH" (by decide) rfl⟩

/-- Counterexample to claim C2 as stated: on a page whose content fits the
context window, an unsupported policy value raises no error at all — the
handler issues a model call and pushes a record. -/
theorem claim2_counterexample :
    (requestHandlerContent toyEnv { model := "m", maxTokens := 100 }
        { instructions := "I", content := some "text", longContentConfig := some "bogus"
          openaiApiKey := "k" } "H").calls.length = 1
      ∧ isConfigError (requestHandlerContent toyEnv { model := "m", maxTokens := 100 }
        { instructions := "I", content := some "text", longContentConfig := some "bogus"
          openaiApiKey := "k" } "H") = false
      ∧ isPushed (requestHandlerContent toyEnv { model := "m", maxTokens := 100 }
        { instructions := "I", content := some "text", longContentConfig := some "bogus"
          openaiApiKey := "k" } "H") = true := by
  refine ⟨?_, ?_, ?_⟩ <;> decide

/-- Claim C2 (amended): for every page whose content token count exceeds
`maxTokens`, a `longContentConfig` value outside the enumerated set
{skip, truncate, split} raises the fatal page-scoped configuration error
before any model call is issued. -/
theorem claim2_amended_invalid_policy_rejected_when_oversized (env : Env)
    (modelConfig : ModelCfg) (input : HandlerInput) (originalContentHtml : String)
    (h : env.getNumberOfTextTokens (convertPageContent env input.content originalContentHtml)
      > modelConfig.maxTokens)
    (h1 : input.longContentConfig ≠ some "skip")
    (h2 : input.longContentConfig ≠ some "truncate")
    (h3 : input.longContentConfig ≠ some "split") :
    (requestHandlerContent env modelConfig input originalContentHtml).outcome
      = Except.error (Err.config
          ("Unsupported config value for longContentConfig: "
            ++ showPolicy input.longContentConfig))
      ∧ (requestHandlerContent env modelConfig input originalContentHtml).calls = [] := by
  unfold requestHandlerContent
  rw [if_pos h, if_neg h1, if_neg h2, if_neg h3]
  exact ⟨rfl, rfl⟩

theorem claim2_witness :
    toyEnv.getNumberOfTextTokens (convertPageContent toyEnv (some "text") "HHHHHHHHHH") > 10 ∧
    ((requestHandlerContent toyEnv { model := "m", maxTokens := 10 }
        { instructions := "I", content := some "text", longContentConfig := some "bogus"
          openaiApiKey := "k" } "HHHHHHHHHH").outcome
      = Except.error (Err.config
          ("Unsupported config value for longContentConfig: " ++ showPolicy (some "bogus")))
      ∧ (requestHandlerContent toyEnv { model := "m", maxTokens := 10 }
        { instructions := "I", content := some "text", longContentConfig := some "bogus"
          openaiApiKey := "k" } "HHHHHHHHHH").calls = []) :=
  ⟨by decide, claim2_amended_invalid_policy_rejected_when_oversized toyEnv
    { model := "m", maxTokens := 10 }
    { instructions := "I", content := some "text", longContentConfig := some "bogus"
      openaiApiKey := "k" } "HHHHHHHHHH" (by decide) (by decide) (by decide) (by decide)⟩

/-- Counterexample to claim C3 as stated: with `maxTokens = 10` and a
20-token instruction the computed budget is negative, yet under the
truncate policy the handler validates nothing, raises no configuration
error, issues its one model call and pushes a record. -/
theorem claim3_counterexample :
    contentMaxTokensQ { model := "m", maxTokens := 10 } 20 < 0
      ∧ (requestHandlerContent toyEnv { model := "m", maxTokens := 10 }
        { instructions := "IIIIIIIIIIIIIIIIIIII", content := some "text"
          longContentConfig := some "truncate", openaiApiKey := "k" } "HHHHHHHHHH").calls.length
        = 1
      ∧ isConfigError (requestHandlerContent toyEnv { model := "m", maxTokens := 10 }
        { instructions := "IIIIIIIIIIIIIIIIIIII", content := some "text"
          longContentConfig := some "truncate", openaiApiKey := "k" } "HHHHHHHHHH") = false
      ∧ isPushed (requestHandlerContent toyEnv { model := "m", maxTokens := 10 }
        { instructions := "IIIIIIIIIIIIIIIIIIII", content := some "text"
          longContentConfig := some "truncate", openaiApiKey := "k" } "HHHHHHHHHH") = true := by
  refine ⟨?_, ?_, ?_, ?_⟩
  · norm_num [contentMaxTokensQ]
  · decide
  · decide
  · decide

/-- Claim C3 (amended): under the truncate policy the content budget
`maxTokens * 0.9 - instructionTokens` is computed without flooring and
without any sign validation, is passed as-is to the truncation helper, and
the model call is dispatched regardless of the budget sign; no
configuration error can arise from this branch. -/
theorem claim3_amended_budget_unvalidated (env : Env) (modelConfig : ModelCfg)
    (input : HandlerInput) (originalContentHtml : String)
    (h : env.getNumberOfTextTokens (convertPageContent env input.content originalContentHtml)
      > modelConfig.maxTokens)
    (hp : input.longContentConfig = some "truncate") :
    (requestHandlerContent env modelConfig input originalContentHtml).calls
      = [mkPrompt input.instructions
          (env.shortsTextByTokenLength
            (convertPageContent env input.content originalContentHtml)
            (contentMaxTokensQ modelConfig (env.getNumberOfTextTokens input.instructions)))]
      ∧ isConfigError (requestHandlerContent env modelConfig input originalContentHtml)
        = false := by
  have h1 : ¬ input.longContentConfig = some "skip" := by rw [hp]; decide
  unfold requestHandlerContent
  rw [if_pos h, if_neg h1, if_pos hp]
  rcases henv : env.processInstructions (mkPrompt input.instructions
      (env.shortsTextByTokenLength
        (convertPageContent env input.content originalContentHtml)
        (contentMaxTokensQ modelConfig (env.getNumberOfTextTokens input.instructions))))
    with e | r
  · simp [henv, isConfigError]
  · simp [henv, isConfigError]

theorem claim3_witness :
    toyEnv.getNumberOfTextTokens (convertPageContent toyEnv (some "text") "HHHHHHHHHH") > 10 ∧
    ((requestHandlerContent toyEnv { model := "m", maxTokens := 10 }
        { instructions := "IIIIIIIIIIIIIIIIIIII", content := some "text"
          longContentConfig := some "truncate", openaiApiKey := "k" } "HHHHHHHHHH").calls
      = [mkPrompt "IIIIIIIIIIIIIIIIIIII"
          (toyEnv.shortsTextByTokenLength (convertPageContent toyEnv (some "text") "HHHHHHHHHH")
            (contentMaxTokensQ { model := "m", maxTokens := 10 }
              (toyEnv.getNumberOfTextTokens "IIIIIIIIIIIIIIIIIIII")))]
      ∧ isConfigError (requestHandlerContent toyEnv { model := "m", maxTokens := 10 }
        { instructions := "IIIIIIIIIIIIIIIIIIII", content := some "text"
          longContentConfig := some "truncate", openaiApiKey := "k" } "HHHHHHHHHH") = false) :=
  ⟨by decide, claim3_amended_budget_unvalidated toyEnv
    { model := "m", maxTokens := 10 }
    { instructions := "IIIIIIIIIIIIIIIIIIII", content := some "text"
      longContentConfig := some "truncate", openaiApiKey := "k" } "HHHHHHHHHH"
    (by decide) rfl⟩

/-- Counterexample to claim C4 as stated: under the truncate policy the
prompt carries the truncated text, but the `content` field of the pushed record
carries the full converted page content, which differs from the truncated
text. -/
theorem claim4_counterexample :
    (requestHandlerContent toyEnv { model := "m", maxTokens := 10 }
        { instructions := "I", content := some "text", longContentConfig := some "truncate"
          openaiApiKey := "k" } "HHHHHHHHHH").calls
      = [mkPrompt "I"
          (toyEnv.shortsTextByTokenLength (convertPageContent toyEnv (some "text") "HHHHHHHHHH")
            (contentMaxTokensQ { model := "m", maxTokens := 10 }
              (toyEnv.getNumberOfTextTokens "I")))]
      ∧ recordContentOf (requestHandlerContent toyEnv { model := "m", maxTokens := 10 }
        { instructions := "I", content := some "text", longContentConfig := some "truncate"
          openaiApiKey := "k" } "HHHHHHHHHH")
        = some (convertPageContent toyEnv (some "text") "HHHHHHHHHH")
      ∧ convertPageContent toyEnv (some "text") "HHHHHHHHHH"
        ≠ toyEnv.shortsTextByTokenLength (convertPageContent toyEnv (some "text") "HHHHHHHHHH")
            (contentMaxTokensQ { model := "m", maxTokens := 10 }
              (toyEnv.getNumberOfTextTokens "I")) := by
  refine ⟨?_, ?_, ?_⟩ <;> decide

/-- Claim C4 (amended): whenever the handler pushes a record, its
`content` field is the full converted page content (not the adapted text
sent to the model), and `originalContent` is the raw page HTML. -/
theorem claim4_amended_record_content_is_page_content (env : Env) (modelConfig : ModelCfg)
    (input : HandlerInput) (originalContentHtml : String) (rec : ResultRecord)
    (h : (requestHandlerContent env modelConfig input originalContentHtml).outcome
      = Except.ok (some rec)) :
    rec.content = convertPageContent env input.content originalContentHtml
      ∧ rec.originalContent = originalContentHtml := by
  by_cases hlen : env.getNumberOfTextTokens
      (convertPageContent env input.content originalContentHtml) > modelConfig.maxTokens
  · unfold requestHandlerContent at h
    rw [if_pos hlen] at h
    by_cases hskip : input.longContentConfig = some "skip"
    · rw [if_pos hskip] at h
      exact absurd h (by simp)
    · rw [if_neg hskip] at h
      by_cases htr : input.longContentConfig = some "truncate"
      · rw [if_pos htr] at h
        simp only [] at h
        split at h
        · simp [mkResultRecord] at h
          subst h
          exact ⟨rfl, rfl⟩
        · exact absurd h (by simp)
      · rw [if_neg htr] at h
        by_cases hsp : input.longContentConfig = some "split"
        · rw [if_pos hsp] at h
          simp only [] at h
          split at h
          · simp [mkResultRecord] at h
            subst h
            exact ⟨rfl, rfl⟩
          · exact absurd h (by simp)
        · rw [if_neg hsp] at h
          exact absurd h (by simp)
  · unfold requestHandlerContent at h
    rw [if_neg hlen] at h
    simp only [] at h
    split at h
    · simp [mkResultRecord] at h
      subst h
      exact ⟨rfl, rfl⟩
    · exact absurd h (by simp)

theorem claim4_witness :
    (requestHandlerContent toyEnv { model := "m", maxTokens := 100 }
        { instructions := "I", content := some "text", longContentConfig := none
          openaiApiKey := "k" } "H").outcome
      = Except.ok (some
          { contentLength := 4, contentTokenLength := 4, instructionTokenLength := 1
            answerTokenLength := 11, totalTokenLength := 11, openaiModel := "m"
            openaiApiKey := false, answer := "I```tx:H```", originalContent := "H"
            content := "tx:H" })
      ∧ (({ contentLength := 4, contentTokenLength := 4, instructionTokenLength := 1
            answerTokenLength := 11, totalTokenLength := 11, openaiModel := "m"
            openaiApiKey := false, answer := "I```tx:H```", originalContent := "H"
            content := "tx:H" } : ResultRecord).content
          = convertPageContent toyEnv (some "text") "H"
        ∧ ({ contentLength := 4, contentTokenLength := 4, instructionTokenLength := 1
             answerTokenLength := 11, totalTokenLength := 11, openaiModel := "m"
             openaiApiKey := false, answer := "I```tx:H```", originalContent := "H"
             content := "tx:H" } : ResultRecord).originalContent = "H") :=
  ⟨by decide, claim4_amended_record_content_is_page_content toyEnv
    { model := "m", maxTokens := 100 }
    { instructions := "I", content := some "text", longContentConfig := none
      openaiApiKey := "k" } "H"
    { contentLength := 4, contentTokenLength := 4, instructionTokenLength := 1
      answerTokenLength := 11, totalTokenLength := 11, openaiModel := "m"
      openaiApiKey := false, answer := "I```tx:H```", originalContent := "H"
      content := "tx:H" } (by decide)⟩

/-- Claim C6: under the split policy, if any one of the dispatched chunk
calls fails, the page fails with the classified model error and no record
is pushed, however many sibling chunk calls succeeded. -/
theorem claim6_split_chunk_failure_aborts_page (env : Env) (modelConfig : ModelCfg)
    (input : HandlerInput) (originalContentHtml : String) (errMsg : String)
    (h : env.getNumberOfTextTokens (convertPageContent env input.content originalContentHtml)
      > modelConfig.maxTokens)
    (hp : input.longContentConfig = some "split")
    (herr : Except.error errMsg ∈ List.map env.processInstructions
        (List.map (fun contentPart => mkPrompt input.instructions contentPart)
          (env.chunkTextByTokenLenght
            (convertPageContent env input.content originalContentHtml)
            (contentMaxTokensQ modelConfig (env.getNumberOfTextTokens input.instructions))))) :
    isOpenaiError (requestHandlerContent env modelConfig input originalContentHtml) = true
      ∧ isPushed (requestHandlerContent env modelConfig input originalContentHtml) = false := by
  have h1 : ¬ input.longContentConfig = some "skip" := by rw [hp]; decide
  have h2 : ¬ input.longContentConfig = some "truncate" := by rw [hp]; decide
  unfold requestHandlerContent
  rw [if_pos h, if_neg h1, if_neg h2, if_pos hp]
  rcases promiseAll_of_mem_error _ _ herr with ⟨m, hm⟩
  simp only []
  rw [hm]
  exact ⟨rfl, rfl⟩

theorem claim6_witness :
    toyEnv.getNumberOfTextTokens (convertPageContent toyEnv (some "text") "HHHHHHHHHH") > 10 ∧
    Except.error "boom" ∈ List.map toyEnv.processInstructions
        (List.map (fun contentPart => mkPrompt "I" contentPart)
          (toyEnv.chunkTextByTokenLenght (convertPageContent toyEnv (some "text") "HHHHHHHHHH")
            (contentMaxTokensQ { model := "m", maxTokens := 10 }
              (toyEnv.getNumberOfTextTokens "I")))) ∧
    (isOpenaiError (requestHandlerContent toyEnv { model := "m", maxTokens := 10 }
        { instructions := "I", content := some "text", longContentConfig := some "split"
          openaiApiKey := "k" } "HHHHHHHHHH") = true
      ∧ isPushed (requestHandlerContent toyEnv { model := "m", maxTokens := 10 }
        { instructions := "I", content := some "text", longContentConfig := some "split"
          openaiApiKey := "k" } "HHHHHHHHHH") = false) :=
  ⟨by decide, by decide, claim6_split_chunk_failure_aborts_page toyEnv
    { model := "m", maxTokens := 10 }
    { instructions := "I", content := some "text", longContentConfig := some "split"
      openaiApiKey := "k" } "HHHHHHHHHH" "boom" (by decide) rfl (by decide)⟩

/-- Claim C9: when any chunk call of a split fails, the per-page usage
accumulator is left exactly as freshly initialised — no partial usage is
recorded for a failed page. -/
theorem claim9_failed_split_zero_usage (env : Env) (modelConfig : ModelCfg)
    (input : HandlerInput) (originalContentHtml : String) (errMsg : String)
    (h : env.getNumberOfTextTokens (convertPageContent env input.content originalContentHtml)
      > modelConfig.maxTokens)
    (hp : input.longContentConfig = some "split")
    (herr : Except.error errMsg ∈ List.map env.processInstructions
        (List.map (fun contentPart => mkPrompt input.instructions contentPart)
          (env.chunkTextByTokenLenght
            (convertPageContent env input.content originalContentHtml)
            (contentMaxTokensQ modelConfig (env.getNumberOfTextTokens input.instructions))))) :
    (requestHandlerContent env modelConfig input originalContentHtml).usage
        = OpenaiAPIUsage.init modelConfig.model
      ∧ ((requestHandlerContent env modelConfig input
          originalContentHtml).usage).getTotalTokenUsage = 0 := by
  have h1 : ¬ input.longContentConfig = some "skip" := by rw [hp]; decide
  have h2 : ¬ input.longContentConfig = some "truncate" := by rw [hp]; decide
  unfold requestHandlerContent
  rw [if_pos h, if_neg h1, if_neg h2, if_pos hp]
  rcases promiseAll_of_mem_error _ _ herr with ⟨m, hm⟩
  simp only []
  rw [hm]
  exact ⟨rfl, rfl⟩

theorem claim9_witness :
    toyEnv.getNumberOfTextTokens (convertPageContent toyEnv (some "text") "HHHHHHHHHH") > 10 ∧
    Except.error "boom" ∈ List.map toyEnv.processInstructions
        (List.map (fun contentPart => mkPrompt "I" contentPart)
          (toyEnv.chunkTextByTokenLenght (convertPageContent toyEnv (some "text") "HHHHHHHHHH")
            (contentMaxTokensQ { model := "m", maxTokens := 10 }
              (toyEnv.getNumberOfTextTokens "I")))) ∧
    ((requestHandlerContent toyEnv { model := "m", maxTokens := 10 }
        { instructions := "I", content := some "text", longContentConfig := some "split"
          openaiApiKey := "k" } "HHHHHHHHHH").usage = OpenaiAPIUsage.init "m"
      ∧ ((requestHandlerContent toyEnv { model := "m", maxTokens := 10 }
        { instructions := "I", content := some "text", longContentConfig := some "split"
          openaiApiKey := "k" } "HHHHHHHHHH").usage).getTotalTokenUsage = 0) :=
  ⟨by decide, by decide, claim9_failed_split_zero_usage toyEnv
    { model := "m", maxTokens := 10 }
    { instructions := "I", content := some "text", longContentConfig := some "split"
      openaiApiKey := "k" } "HHHHHHHHHH" "boom" (by decide) rfl (by decide)⟩

/-- Claim C7: under the split policy with an all-successful non-empty chunk
sequence, the page answer is the per-chunk answers joined by a single
newline in original chunk order, and any complete settlement schedule
(any completion order) assembles exactly those index-ordered results. -/
theorem claim7_split_answer_ordered_join (env : Env) (modelConfig : ModelCfg)
    (input : HandlerInput) (originalContentHtml : String)
    (results : List CallResult) (sched : List Nat)
    (h : env.getNumberOfTextTokens (convertPageContent env input.content originalContentHtml)
      > modelConfig.maxTokens)
    (hp : input.longContentConfig = some "split")
    (hne : env.chunkTextByTokenLenght
        (convertPageContent env input.content originalContentHtml)
        (contentMaxTokensQ modelConfig (env.getNumberOfTextTokens input.instructions)) ≠ [])
    (hok : List.map env.processInstructions
        (List.map (fun contentPart => mkPrompt input.instructions contentPart)
          (env.chunkTextByTokenLenght
            (convertPageContent env input.content originalContentHtml)
            (contentMaxTokensQ modelConfig (env.getNumberOfTextTokens input.instructions))))
      = results.map Except.ok)
    (hsched : ∀ i ∈ List.range results.length, i ∈ sched) :
    recordAnswerOf (requestHandlerContent env modelConfig input originalContentHtml)
        = some (String.intercalate "\n" (results.map CallResult.answer))
      ∧ promiseAllSched (List.map env.processInstructions
          (List.map (fun contentPart => mkPrompt input.instructions contentPart)
            (env.chunkTextByTokenLenght
              (convertPageContent env input.content originalContentHtml)
              (contentMaxTokensQ modelConfig (env.getNumberOfTextTokens input.instructions)))))
          sched
        = some (Except.ok results) := by
  have h1 : ¬ input.longContentConfig = some "skip" := by rw [hp]; decide
  have h2 : ¬ input.longContentConfig = some "truncate" := by rw [hp]; decide
  constructor
  · unfold requestHandlerContent
    rw [if_pos h, if_neg h1, if_neg h2, if_pos hp]
    simp only []
    rw [hok, promiseAll_map_ok]
    rfl
  · rw [hok]
    exact promiseAllSched_complete results sched
      (fun i hi => hsched i (List.mem_range.mpr hi))

theorem claim7_witness :
    toyEnv.getNumberOfTextTokens (convertPageContent toyEnv (some "text") "HHHHHHHHHH") > 10 ∧
    toyEnv.chunkTextByTokenLenght (convertPageContent toyEnv (some "text") "HHHHHHHHHH")
        (contentMaxTokensQ cfg10 (toyEnv.getNumberOfTextTokens "J")) ≠ [] ∧
    List.map toyEnv.processInstructions
        (List.map (fun contentPart => mkPrompt "J" contentPart)
          (toyEnv.chunkTextByTokenLenght (convertPageContent toyEnv (some "text") "HHHHHHHHHH")
            (contentMaxTokensQ cfg10 (toyEnv.getNumberOfTextTokens "J"))))
      = resultsJ.map Except.ok ∧
    (∀ i ∈ List.range resultsJ.length, i ∈ [2, 0, 1]) ∧
    (recordAnswerOf (requestHandlerContent toyEnv cfg10 splitInputJ "HHHHHHHHHH")
        = some (String.intercalate "\n" (resultsJ.map CallResult.answer))
      ∧ promiseAllSched (List.map toyEnv.processInstructions
          (List.map (fun contentPart => mkPrompt "J" contentPart)
            (toyEnv.chunkTextByTokenLenght (convertPageContent toyEnv (some "text") "HHHHHHHHHH")
              (contentMaxTokensQ cfg10 (toyEnv.getNumberOfTextTokens "J"))))) [2, 0, 1]
        = some (Except.ok resultsJ)) :=
  ⟨by decide, by decide, by decide, by decide,
    claim7_split_answer_ordered_join toyEnv cfg10 splitInputJ "HHHHHHHHHH" resultsJ [2, 0, 1]
      (by decide) rfl (by decide) (by decide) (by decide)⟩

/-- Claim C8: for a successful split over N chunks, the total token usage
in the pushed record equals the sum of the N individual call usages,
independent of the completion order (any complete settlement schedule
assembles the same index-ordered results). -/
theorem claim8_split_usage_sum (env : Env) (modelConfig : ModelCfg)
    (input : HandlerInput) (originalContentHtml : String)
    (results : List CallResult) (sched : List Nat)
    (h : env.getNumberOfTextTokens (convertPageContent env input.content originalContentHtml)
      > modelConfig.maxTokens)
    (hp : input.longContentConfig = some "split")
    (hok : List.map env.processInstructions
        (List.map (fun contentPart => mkPrompt input.instructions contentPart)
          (env.chunkTextByTokenLenght
            (convertPageContent env input.content originalContentHtml)
            (contentMaxTokensQ modelConfig (env.getNumberOfTextTokens input.instructions))))
      = results.map Except.ok)
    (hsched : ∀ i ∈ List.range results.length, i ∈ sched) :
    recordTotalTokensOf (requestHandlerContent env modelConfig input originalContentHtml)
        = some ((results.map (fun r => r.usage.total_tokens)).sum)
      ∧ promiseAllSched (List.map env.processInstructions
          (List.map (fun contentPart => mkPrompt input.instructions contentPart)
            (env.chunkTextByTokenLenght
              (convertPageContent env input.content originalContentHtml)
              (contentMaxTokensQ modelConfig (env.getNumberOfTextTokens input.instructions)))))
          sched
        = some (Except.ok results) := by
  have h1 : ¬ input.longContentConfig = some "skip" := by rw [hp]; decide
  have h2 : ¬ input.longContentConfig = some "truncate" := by rw [hp]; decide
  constructor
  · unfold requestHandlerContent
    rw [if_pos h, if_neg h1, if_neg h2, if_pos hp]
    simp only []
    rw [hok, promiseAll_map_ok]
    simp [recordTotalTokensOf, mkResultRecord, OpenaiAPIUsage.getTotalTokenUsage,
      foldl_logApiCallUsage, OpenaiAPIUsage.init]
  · rw [hok]
    exact promiseAllSched_complete results sched
      (fun i hi => hsched i (List.mem_range.mpr hi))

theorem claim8_witness :
    toyEnv.getNumberOfTextTokens (convertPageContent toyEnv (some "text") "HHHHHHHHHH") > 10 ∧
    List.map toyEnv.processInstructions
        (List.map (fun contentPart => mkPrompt "J" contentPart)
          (toyEnv.chunkTextByTokenLenght (convertPageContent toyEnv (some "text") "HHHHHHHHHH")
            (contentMaxTokensQ cfg10 (toyEnv.getNumberOfTextTokens "J"))))
      = resultsJ.map Except.ok ∧
    (∀ i ∈ List.range resultsJ.length, i ∈ [1, 2, 0]) ∧
    (recordTotalTokensOf (requestHandlerContent toyEnv cfg10 splitInputJ "HHHHHHHHHH")
        = some ((resultsJ.map (fun r => r.usage.total_tokens)).sum)
      ∧ promiseAllSched (List.map toyEnv.processInstructions
          (List.map (fun contentPart => mkPrompt "J" contentPart)
            (toyEnv.chunkTextByTokenLenght (convertPageContent toyEnv (some "text") "HHHHHHHHHH")
              (contentMaxTokensQ cfg10 (toyEnv.getNumberOfTextTokens "J"))))) [1, 2, 0]
        = some (Except.ok resultsJ)) :=
  ⟨by decide, by decide, by decide,
    claim8_split_usage_sum toyEnv cfg10 splitInputJ "HHHHHHHHHH" resultsJ [1, 2, 0]
      (by decide) rfl (by decide) (by decide)⟩

/-- Counterexample to claim C10 as stated: the empty string is a selector
value other than markdown and text, yet it is not routed to the
shrunk-HTML path — the JS or-default treats it as unset and converts via
markdown. -/
theorem claim10_counterexample :
    (some "" : Option String) ≠ some "markdown"
      ∧ (some "" : Option String) ≠ some "text"
      ∧ convertPageContent toyEnv (some "") "H" = toyEnv.htmlToMarkdown "H"
      ∧ convertPageContent toyEnv (some "") "H" ≠ toyEnv.shrinkHtml "H" := by
  refine ⟨?_, ?_, ?_, ?_⟩ <;> decide

/-- Claim C10 (amended): every non-empty selector value other than
markdown and text (html included) is processed via the shrunk-HTML
conversion; an unset or empty selector defaults to markdown; no value is
ever rejected. -/
theorem claim10_amended_format_dispatch (env : Env) (c : Option String) (html : String)
    (h1 : c ≠ some "markdown") (h2 : c ≠ some "text") (h3 : c ≠ none) (h4 : c ≠ some "") :
    convertPageContent env c html = env.shrinkHtml html
      ∧ convertPageContent env none html = env.htmlToMarkdown html
      ∧ convertPageContent env (some "") html = env.htmlToMarkdown html := by
  refine ⟨?_, rfl, rfl⟩
  rcases c with _ | s
  · exact absurd rfl h3
  · have hs : ¬ s = "" := fun hh => h4 (by rw [hh])
    have hm : ¬ s = "markdown" := fun hh => h1 (by rw [hh])
    have ht : ¬ s = "text" := fun hh => h2 (by rw [hh])
    unfold convertPageContent resolveContentFormat
    simp only []
    simp only [if_neg hs, if_neg hm, if_neg ht]

theorem claim10_witness :
    (some "html" : Option String) ≠ some "markdown" ∧
    (some "html" : Option String) ≠ some "text" ∧
    (some "html" : Option String) ≠ none ∧
    (some "html" : Option String) ≠ some "" ∧
    (convertPageContent toyEnv (some "html") "H" = toyEnv.shrinkHtml "H"
      ∧ convertPageContent toyEnv none "H" = toyEnv.htmlToMarkdown "H"
      ∧ convertPageContent toyEnv (some "") "H" = toyEnv.htmlToMarkdown "H") :=
  ⟨by decide, by decide, by decide, by decide,
    claim10_amended_format_dispatch toyEnv (some "html") "H"
      (by decide) (by decide) (by decide) (by decide)⟩

end OpenaiScraper
